import Mathlib

/-!
Verification of the unity-cli relay broker specification against a shallow
embedding of the repository's Python sources.

Layers of the embedding:
* `UnityCli` — error taxonomy (`exceptions.py`), exit codes
  (`cli/exit_codes.py`), configuration defaults (`config.py`) and the framed
  wire codec (constants from `config.py`; the decode loop is modelled from the
  spec because the client transport module is not part of the provided
  sources).
* `Relay` — the status-file fallback (`relay/status_file.py`), at two levels:
  a typed level (well-formed status files, timestamps as rational UTC
  instants) for the reading/freshness claims, and a JSON level (raw parsed
  JSON values, Python datetime objects with optional tz offset) for the
  claims about `StatusFileContent.from_dict` and exception behaviour.
-/

namespace UnityCli

/-- Error taxonomy of `unity_cli/exceptions.py`: every concrete class of the
`UnityCLIError` hierarchy, each carrying `message` and optional `code`. -/
inductive UnityCLIError where
  | base (message : String) (code : Option String)
  | connectionError (message : String) (code : Option String)
  | protocolError (message : String) (code : Option String)
  | instanceError (message : String) (code : Option String)
  | timeoutError (message : String) (code : Option String)
  | hubError (message : String) (code : Option String)
  | hubNotFoundError (message : String) (code : Option String)
  | hubInstallError (message : String) (code : Option String)
  | projectError (message : String) (code : Option String)
  | projectVersionError (message : String) (code : Option String)
  | editorNotFoundError (message : String) (code : Option String)
  deriving DecidableEq, Repr

/-- The `code` attribute of a `UnityCLIError`. -/
def UnityCLIError.code : UnityCLIError → Option String
  | .base _ c | .connectionError _ c | .protocolError _ c | .instanceError _ c
  | .timeoutError _ c | .hubError _ c | .hubNotFoundError _ c
  | .hubInstallError _ c | .projectError _ c | .projectVersionError _ c
  | .editorNotFoundError _ c => c

/-- Python `isinstance(exc, ConnectionError)` (the class has no subclasses). -/
def UnityCLIError.isConnectionError : UnityCLIError → Bool
  | .connectionError _ _ => true
  | _ => false

/-- Python `isinstance(exc, TimeoutError)` (the class has no subclasses). -/
def UnityCLIError.isTimeoutError : UnityCLIError → Bool
  | .timeoutError _ _ => true
  | _ => false

/-- Python `isinstance(exc, InstanceError)` (the class has no subclasses). -/
def UnityCLIError.isInstanceError : UnityCLIError → Bool
  | .instanceError _ _ => true
  | _ => false

/-- The `ExitCode` IntEnum of `unity_cli/cli/exit_codes.py`. -/
inductive ExitCode where
  | SUCCESS
  | USAGE_ERROR
  | TRANSIENT_ERROR
  | CONNECTION_ERROR
  | OPERATION_ERROR
  | TEST_FAILURE
  deriving DecidableEq, Repr

/-- Integer value of each `ExitCode` member. -/
def ExitCode.toNat : ExitCode → Nat
  | .SUCCESS => 0
  | .USAGE_ERROR => 1
  | .TRANSIENT_ERROR => 2
  | .CONNECTION_ERROR => 3
  | .OPERATION_ERROR => 4
  | .TEST_FAILURE => 5

/-- The `_TRANSIENT_CODES` frozenset of `exit_codes.py`. -/
def TRANSIENT_CODES : List String := ["INSTANCE_RELOADING", "INSTANCE_BUSY"]

/-- Membership of an optional error code in `_TRANSIENT_CODES`
(`exc.code in _TRANSIENT_CODES`; a `None` code is never a member). -/
def codeIsTransient : Option String → Bool
  | some c => TRANSIENT_CODES.contains c
  | none => false

/-- The `exit_code_for` function of `unity_cli/cli/exit_codes.py`, with the
`isinstance` checks performed in source order. -/
def exit_code_for (exc : UnityCLIError) : ExitCode :=
  if exc.isConnectionError then ExitCode.CONNECTION_ERROR
  else if exc.isTimeoutError then ExitCode.TRANSIENT_ERROR
  else if exc.isInstanceError then
    if codeIsTransient exc.code then ExitCode.TRANSIENT_ERROR
    else ExitCode.OPERATION_ERROR
  else ExitCode.OPERATION_ERROR

/-- Protocol constants of `unity_cli/config.py`. -/
def HEADER_SIZE : Nat := 4

/-- Maximum frame payload size of `unity_cli/config.py` (16 MiB). -/
def MAX_PAYLOAD_BYTES : Nat := 16 * 1024 * 1024

/-- Default command timeout of `unity_cli/config.py`. -/
def DEFAULT_TIMEOUT_MS : Nat := 30000

/-- The `UnityCLIConfig` model of `unity_cli/config.py`, with the field
defaults declared there.  (`instance` is a Lean keyword, hence `instance_`.) -/
structure UnityCLIConfig where
  relay_host : String := "127.0.0.1"
  relay_port : Nat := 6500
  timeout : Rat := 5
  timeout_ms : Nat := DEFAULT_TIMEOUT_MS
  instance_ : Option String := none
  log_types : List String := ["error", "warning"]
  log_count : Nat := 20
  retry_initial_ms : Nat := 500
  retry_max_ms : Nat := 8000
  retry_max_time_ms : Nat := 30000
  deriving Repr

/-- A `UnityCLIConfig` constructed without explicit overrides. -/
def defaultConfig : UnityCLIConfig := {}

/-- Big-endian 4-byte encoding of a 32-bit length. -/
def u32be (n : Nat) : List Nat :=
  [n / 2 ^ 24 % 256, n / 2 ^ 16 % 256, n / 2 ^ 8 % 256, n % 256]

/-- Value of a big-endian byte list. -/
def beToNat (bs : List Nat) : Nat := bs.foldl (fun acc b => acc * 256 + b) 0

/-- Modelled from the spec: the wire codec's `encode` (§4.1) — the client
transport module that implements it is not among the provided sources, only
its constants (`config.py`) and `ProtocolError` are.  A frame is the 4-byte
unsigned big-endian length prefix followed by the payload bytes. -/
def encodeFrame (payload : List Nat) : List Nat :=
  u32be payload.length ++ payload

/-- Modelled from the spec: the wire codec's `decode` (§4.1).  Reads the
4-byte big-endian length prefix; fails with `ProtocolError` if the header is
incomplete, the declared length exceeds `MAX_PAYLOAD_BYTES`, or the stream
ends before the full payload arrives; otherwise returns the payload and the
remaining stream. -/
def decodeFrame (stream : List Nat) :
    Except UnityCLIError (List Nat × List Nat) :=
  if stream.length < HEADER_SIZE then
    .error (.protocolError "incomplete header" (some "PROTOCOL_ERROR"))
  else
    let declared := beToNat (stream.take HEADER_SIZE)
    let rest := stream.drop HEADER_SIZE
    if declared > MAX_PAYLOAD_BYTES then
      .error (.protocolError "payload too large" (some "PROTOCOL_ERROR"))
    else if rest.length < declared then
      .error (.protocolError "incomplete payload" (some "PROTOCOL_ERROR"))
    else
      .ok (rest.take declared, rest.drop declared)

end UnityCli

namespace Relay

/-! SHA-1, modelling `hashlib.sha1` as used by `compute_instance_hash` in
`relay/status_file.py`.  32-bit words are `Nat` values kept below `2 ^ 32` by
explicit `% 2 ^ 32` reductions; the implementation matches the published
test vectors (see `sha1_empty` and `sha1_abc` below). -/

/-- Left rotation of a 32-bit word (input masked to 32 bits). -/
def rotl32 (n x : Nat) : Nat :=
  (x % 2 ^ (32 - n)) * 2 ^ n + x % 2 ^ 32 / 2 ^ (32 - n)

/-- Big-endian 8-byte encoding of the 64-bit message bit length. -/
def u64be (n : Nat) : List Nat :=
  [n / 2 ^ 56 % 256, n / 2 ^ 48 % 256, n / 2 ^ 40 % 256, n / 2 ^ 32 % 256,
   n / 2 ^ 24 % 256, n / 2 ^ 16 % 256, n / 2 ^ 8 % 256, n % 256]

/-- SHA-1 message padding: `0x80`, zeros to 56 mod 64, 8-byte bit length. -/
def sha1Pad (msg : List Nat) : List Nat :=
  msg ++ [0x80] ++ List.replicate ((119 - msg.length % 64) % 64) 0 ++
    u64be (8 * msg.length)

/-- Split a byte list into 64-byte chunks (`fuel` bounds the recursion and is
instantiated with the list length). -/
def chunksOf64 : Nat → List Nat → List (List Nat)
  | 0, _ => []
  | _, [] => []
  | fuel + 1, l => l.take 64 :: chunksOf64 fuel (l.drop 64)

/-- Group bytes into big-endian 32-bit words. -/
def bytesToWords : Nat → List Nat → List Nat
  | 0, _ => []
  | _, [] => []
  | fuel + 1, l => UnityCli.beToNat (l.take 4) :: bytesToWords fuel (l.drop 4)

/-- Message-schedule extension, producing words in reverse order so that the
indices 2, 7, 13, 15 address `w[i-3]`, `w[i-8]`, `w[i-14]`, `w[i-16]`. -/
def sha1ExtendRev : Nat → List Nat → List Nat
  | 0, acc => acc
  | n + 1, acc =>
    let w := rotl32 1 ((acc.getD 2 0 ^^^ acc.getD 7 0) ^^^
      (acc.getD 13 0 ^^^ acc.getD 15 0))
    sha1ExtendRev n (w :: acc)

/-- Round function `f` of SHA-1 (32-bit complement via xor with the mask). -/
def sha1F (i b c d : Nat) : Nat :=
  if i < 20 then (b &&& c) ||| ((b ^^^ 0xFFFFFFFF) &&& d)
  else if i < 40 then (b ^^^ c) ^^^ d
  else if i < 60 then ((b &&& c) ||| (b &&& d)) ||| (c &&& d)
  else (b ^^^ c) ^^^ d

/-- Round constant `k` of SHA-1. -/
def sha1K (i : Nat) : Nat :=
  if i < 20 then 0x5A827999
  else if i < 40 then 0x6ED9EBA1
  else if i < 60 then 0x8F1BBCDC
  else 0xCA62C1D6

/-- The five 32-bit hash words. -/
structure SHA1State where
  h0 : Nat
  h1 : Nat
  h2 : Nat
  h3 : Nat
  h4 : Nat
  deriving Repr

/-- SHA-1 initialisation vector. -/
def sha1Init : SHA1State := ⟨0x67452301, 0xEFCDAB89, 0x98BADCFE, 0x10325476, 0xC3D2E1F0⟩

/-- One SHA-1 round on the working state `(a, b, c, d, e)`. -/
def sha1Round (i w : Nat) (s : Nat × Nat × Nat × Nat × Nat) :
    Nat × Nat × Nat × Nat × Nat :=
  ((rotl32 5 s.1 + sha1F i s.2.1 s.2.2.1 s.2.2.2.1 + s.2.2.2.2 + sha1K i + w) % 2 ^ 32,
   s.1, rotl32 30 s.2.1, s.2.2.1, s.2.2.2.1)

/-- Compression of one 64-byte chunk. -/
def sha1Compress (st : SHA1State) (chunk : List Nat) : SHA1State :=
  let ws := (sha1ExtendRev 64 (bytesToWords chunk.length chunk).reverse).reverse
  let f := ws.enum.foldl (fun s iw => sha1Round iw.1 iw.2 s)
    (st.h0, st.h1, st.h2, st.h3, st.h4)
  ⟨(st.h0 + f.1) % 2 ^ 32, (st.h1 + f.2.1) % 2 ^ 32, (st.h2 + f.2.2.1) % 2 ^ 32,
   (st.h3 + f.2.2.2.1) % 2 ^ 32, (st.h4 + f.2.2.2.2) % 2 ^ 32⟩

/-- Big-endian bytes of a 32-bit word. -/
def wordToBytes (w : Nat) : List Nat :=
  [w / 2 ^ 24 % 256, w / 2 ^ 16 % 256, w / 2 ^ 8 % 256, w % 256]

/-- The 20-byte digest of a final SHA-1 state. -/
def sha1DigestBytes (st : SHA1State) : List Nat :=
  wordToBytes st.h0 ++ wordToBytes st.h1 ++ wordToBytes st.h2 ++
    wordToBytes st.h3 ++ wordToBytes st.h4

/-- SHA-1 of a byte sequence (`hashlib.sha1(...).digest()`). -/
def sha1 (msg : List Nat) : List Nat :=
  let padded := sha1Pad msg
  sha1DigestBytes ((chunksOf64 padded.length padded).foldl sha1Compress sha1Init)

/-- UTF-8 bytes of one character (`str.encode("utf-8")`, per code point). -/
def charUtf8 (c : Char) : List Nat :=
  let n := c.toNat
  if n < 0x80 then [n]
  else if n < 0x800 then [0xC0 ||| n >>> 6, 0x80 ||| (n &&& 0x3F)]
  else if n < 0x10000 then
    [0xE0 ||| n >>> 12, 0x80 ||| (n >>> 6 &&& 0x3F), 0x80 ||| (n &&& 0x3F)]
  else
    [0xF0 ||| n >>> 18, 0x80 ||| (n >>> 12 &&& 0x3F), 0x80 ||| (n >>> 6 &&& 0x3F),
     0x80 ||| (n &&& 0x3F)]

/-- UTF-8 encoding of a string (`instance_id.encode("utf-8")`). -/
def utf8Encode (s : String) : List Nat := s.data.flatMap charUtf8

/-- Lowercase hexadecimal digit for a value below 16. -/
def hexChar (n : Nat) : Char :=
  if n < 10 then Char.ofNat ('0'.toNat + n) else Char.ofNat ('a'.toNat + (n - 10))

/-- Two lowercase hex digits of one byte. -/
def byteHex (b : Nat) : List Char := [hexChar (b / 16), hexChar (b % 16)]

/-- Lowercase hex string of a byte sequence (`bytes.hex()`). -/
def bytesToHex (bs : List Nat) : String := ⟨bs.flatMap byteHex⟩

/-- The `compute_instance_hash` function of `relay/status_file.py`:
`hashlib.sha1(instance_id.encode("utf-8")).digest()[:4].hex()`. -/
def compute_instance_hash (instance_id : String) : String :=
  bytesToHex ((sha1 (utf8Encode instance_id)).take 4)

/-! Typed view of the status-file fallback of `relay/status_file.py`.
Status files that parse successfully are well-formed records whose
`timestamp` is a UTC instant, modelled as a rational number of seconds
(the files carry ISO-8601 UTC timestamps per the status-file boundary, so
`timestamp.replace(tzinfo=UTC)` is the identity at this level).  The status
directory is modelled as `none` (directory absent) or a listing of file
names paired with `some` parsed content, or `none` for a file whose read
fails (unreadable or invalid JSON). -/

/-- Parsed content of a status file (`StatusFileContent` dataclass), with the
timestamp as a UTC instant in seconds. -/
structure StatusFileContent where
  instance_id : String
  project_name : String
  unity_version : String
  status : String
  relay_host : String
  relay_port : Int
  timestamp : Rat
  seq : Int
  deriving DecidableEq, Repr

/-- State of the status directory: absent, or a listing of entries. -/
abbrev StatusDirState := Option (List (String × Option StatusFileContent))

/-- Python `Path(a) / b` for the paths this module builds. -/
def pyPathJoin (a b : String) : String := if a = "" then b else a ++ "/" ++ b

/-- The `get_status_dir` function: `$UNITY_BRIDGE_STATUS_DIR` when set and
truthy (non-empty), else `~/.unity-bridge`.  `env` is the value of
`os.environ.get("UNITY_BRIDGE_STATUS_DIR")`, `home` is `Path.home()`. -/
def get_status_dir (env : Option String) (home : String) : String :=
  match env with
  | some s => if s ≠ "" then s else pyPathJoin home ".unity-bridge"
  | none => pyPathJoin home ".unity-bridge"

/-- File name of the status file for an instance (`status-{hash}.json`). -/
def status_file_name (instance_id : String) : String :=
  "status-" ++ compute_instance_hash instance_id ++ ".json"

/-- The `get_status_file_path` function of `relay/status_file.py`. -/
def get_status_file_path (env : Option String) (home : String) (instance_id : String) : String :=
  pyPathJoin (get_status_dir env home) (status_file_name instance_id)

/-- The `read_status_file` function, reading the status directory state
directly (which directory is read is decided by `get_status_file_path`): the
file for an instance is looked up under `status-{hash}.json`; a missing
directory or file, or a file whose read/parse failed, yields `none`. -/
def read_status_file (fs : StatusDirState) (instance_id : String) : Option StatusFileContent :=
  match fs with
  | none => none
  | some files =>
    match files.lookup (status_file_name instance_id) with
    | none => none
    | some none => none
    | some (some content) => some content

/-- The `status-*.json` glob of `read_all_status_files`. -/
def globStatusJson (name : String) : Bool :=
  "status-".data.isPrefixOf name.data && ".json".data.isSuffixOf name.data &&
    12 ≤ name.length

/-- Descending-timestamp comparison used to model
`results.sort(key=lambda x: x.timestamp, reverse=True)` (a stable sort, as
Python's `list.sort` is). -/
def newestFirst (a b : StatusFileContent) : Prop := b.timestamp ≤ a.timestamp

instance : DecidableRel newestFirst := fun a b =>
  inferInstanceAs (Decidable (b.timestamp ≤ a.timestamp))

instance : IsTotal StatusFileContent newestFirst :=
  ⟨fun a b => le_total b.timestamp a.timestamp⟩

instance : IsTrans StatusFileContent newestFirst :=
  ⟨fun _ _ _ hab hbc => le_trans hbc hab⟩

/-- The `read_all_status_files` function: every readable `status-*.json`
entry of the directory, sorted newest first; `[]` when the directory does
not exist. -/
def read_all_status_files (fs : StatusDirState) : List StatusFileContent :=
  match fs with
  | none => []
  | some files =>
    List.insertionSort newestFirst
      ((files.filter (fun e => globStatusJson e.1)).filterMap (fun e => e.2))

/-- The `is_instance_reloading` function of `relay/status_file.py`; `now` is
the value of `datetime.now(UTC)` at the age check. -/
def is_instance_reloading (fs : StatusDirState) (now : Rat) (instance_id : String)
    (max_age_seconds : Rat) : Bool :=
  match read_status_file fs instance_id with
  | none => false
  | some status =>
    if status.status ≠ "reloading" then false
    else if now - status.timestamp > max_age_seconds then false
    else true

/-- The path-suffix test of `is_any_instance_reloading`:
`instance_id.endswith("/" + query) or instance_id.endswith("\\" + query)`. -/
def suffixMatch (instance_id query : String) : Bool :=
  ("/" ++ query).data.isSuffixOf instance_id.data ||
    ("\\" ++ query).data.isSuffixOf instance_id.data

/-- The scan loop of `is_any_instance_reloading` over all status files. -/
def reloadingScan (now : Rat) (query : String) (max_age_seconds : Rat) :
    List StatusFileContent → Bool
  | [] => false
  | status :: rest =>
    if status.status ≠ "reloading" then reloadingScan now query max_age_seconds rest
    else if now - status.timestamp > max_age_seconds then
      reloadingScan now query max_age_seconds rest
    else if status.project_name = query then true
    else if suffixMatch status.instance_id query then true
    else reloadingScan now query max_age_seconds rest

/-- The `is_any_instance_reloading` function of `relay/status_file.py`. -/
def is_any_instance_reloading (fs : StatusDirState) (now : Rat) (query : String)
    (max_age_seconds : Rat) : Bool :=
  if is_instance_reloading fs now query max_age_seconds then true
  else reloadingScan now query max_age_seconds (read_all_status_files fs)

/-! Raw JSON view of `StatusFileContent.from_dict` and `read_status_file`,
for reasoning about parsing and exception behaviour.  JSON values are the
values `json.load` can produce; a Python `datetime` is a wall-clock time (in
seconds, as a rational) with an optional tz offset (`None` = naive). -/

/-- A parsed JSON value as produced by `json.load`. -/
inductive Json where
  | null
  | bool (b : Bool)
  | num (q : Rat)
  | str (s : String)
  | arr (elements : List Json)
  | obj (fields : List (String × Json))

/-- A Python `datetime`: wall-clock seconds plus optional utcoffset in
seconds (`none` for a naive datetime). -/
structure PyDateTime where
  wall : Rat
  tzOffset : Option Rat
  deriving DecidableEq, Repr

/-- A Python exception escaping the modelled code. -/
inductive PyExn where
  | attributeError (message : String)
  deriving DecidableEq, Repr

/-- `StatusFileContent` as the dataclass actually stores it: no runtime type
checks, so every field except the parsed timestamp keeps its raw JSON
value. -/
structure PyStatusFileContent where
  instance_id : Json
  project_name : Json
  unity_version : Json
  status : Json
  relay_host : Json
  relay_port : Json
  timestamp : PyDateTime
  seq : Json

/-- Python `dict.get(key, default)` on a JSON object's fields. -/
def jsonGet (fields : List (String × Json)) (key : String) (dflt : Json) : Json :=
  (fields.lookup key).getD dflt

/-- Python `timestamp_str.replace("Z", "+00:00")`, specialised to its
one-character pattern: every `'Z'` is replaced. -/
def replaceZ : List Char → List Char
  | [] => []
  | c :: rest => if c = 'Z' then "+00:00".data ++ replaceZ rest else c :: replaceZ rest

/-- String-level wrapper of `replaceZ`. -/
def pyReplaceZ (s : String) : String := ⟨replaceZ s.data⟩

/-- Numeric value of a digit list. -/
def digitsVal (l : List Char) : Nat :=
  l.foldl (fun a c => a * 10 + (c.toNat - '0'.toNat)) 0

/-- Parse exactly `n` decimal digits. -/
def parseFixed (n : Nat) (l : List Char) : Option (Nat × List Char) :=
  let ds := l.take n
  if ds.length == n && ds.all Char.isDigit then some (digitsVal ds, l.drop n) else none

/-- Consume one expected character. -/
def expectChar (c : Char) : List Char → Option (List Char)
  | x :: rest => if x = c then some rest else none
  | [] => none

/-- Gregorian leap-year rule. -/
def isLeapYear (y : Nat) : Bool := (y % 4 == 0 && y % 100 != 0) || y % 400 == 0

/-- Days in a month. -/
def daysInMonth (y m : Nat) : Nat :=
  if m == 2 then (if isLeapYear y then 29 else 28)
  else if m == 4 || m == 6 || m == 9 || m == 11 then 30
  else 31

/-- Days since 1970-01-01 of a valid Gregorian date with `1 ≤ y`. -/
def daysFromCivil (y m d : Nat) : Int :=
  let yy := if m ≤ 2 then y - 1 else y
  let era := yy / 400
  let yoe := yy % 400
  let mp := if 2 < m then m - 3 else m + 9
  let doy := (153 * mp + 2) / 5 + d - 1
  let doe := yoe * 365 + yoe / 4 - yoe / 100 + doy
  (era * 146097 + doe : Int) - 719468

/-- Parse fractional seconds after the leading digit separator. -/
def parseFrac (l : List Char) : Option (Rat × List Char) :=
  let ds := l.takeWhile Char.isDigit
  if ds.length == 0 then none
  else some ((digitsVal ds : Rat) / ((10 : Rat) ^ ds.length), l.dropWhile Char.isDigit)

/-- Parse `HH:MM[:SS[.ffffff]]`, returning seconds of day. -/
def parseTime (l : List Char) : Option (Rat × List Char) := do
  let (hh, r) ← parseFixed 2 l
  let r ← expectChar ':' r
  let (mm, r) ← parseFixed 2 r
  guard (hh ≤ 23 ∧ mm ≤ 59)
  match expectChar ':' r with
  | none => pure (((hh * 3600 + mm * 60 : Nat) : Rat), r)
  | some r2 => do
    let (ss, r3) ← parseFixed 2 r2
    guard (ss ≤ 59)
    match r3 with
    | '.' :: r4 => do
      let (frac, r5) ← parseFrac r4
      pure (((hh * 3600 + mm * 60 + ss : Nat) : Rat) + frac, r5)
    | ',' :: r4 => do
      let (frac, r5) ← parseFrac r4
      pure (((hh * 3600 + mm * 60 + ss : Nat) : Rat) + frac, r5)
    | _ => pure (((hh * 3600 + mm * 60 + ss : Nat) : Rat), r3)

/-- Parse the `HH:MM[:SS]` body of a utc offset, returning seconds. -/
def parseOffsetBody (l : List Char) : Option (Rat × List Char) := do
  let (hh, r) ← parseFixed 2 l
  let r ← expectChar ':' r
  let (mm, r) ← parseFixed 2 r
  guard (hh ≤ 23 ∧ mm ≤ 59)
  match expectChar ':' r with
  | none => pure (((hh * 3600 + mm * 60 : Nat) : Rat), r)
  | some r2 => do
    let (ss, r3) ← parseFixed 2 r2
    guard (ss ≤ 59)
    pure (((hh * 3600 + mm * 60 + ss : Nat) : Rat), r3)

/-- Parse an optional trailing utc offset (`Z`, `+HH:MM[:SS]`, `-HH:MM[:SS]`
or nothing, as accepted by `datetime.fromisoformat` on Python 3.11+). -/
def parseOffset : List Char → Option (Option Rat × List Char)
  | [] => some (none, [])
  | 'Z' :: rest => some (some 0, rest)
  | '+' :: rest => do
    let (off, r) ← parseOffsetBody rest
    pure (some off, r)
  | '-' :: rest => do
    let (off, r) ← parseOffsetBody rest
    pure (some (-off), r)
  | _ => none

/-- Modelling `datetime.fromisoformat` on the formats relevant to status
files: `YYYY-MM-DD`, optionally followed by a `T` or space separator, a time
of day `HH:MM[:SS[.ffffff]]` and an optional utc offset.  `none` models the
`ValueError` raised on any other string. -/
def parseIso (s : String) : Option PyDateTime := do
  let (y, r) ← parseFixed 4 s.data
  let r ← expectChar '-' r
  let (mo, r) ← parseFixed 2 r
  let r ← expectChar '-' r
  let (d, r) ← parseFixed 2 r
  guard (1 ≤ y ∧ 1 ≤ mo ∧ mo ≤ 12 ∧ 1 ≤ d ∧ d ≤ daysInMonth y mo)
  let days := daysFromCivil y mo d
  match r with
  | [] => pure ⟨(days : Rat) * 86400, none⟩
  | sep :: r2 =>
    if sep = 'T' ∨ sep = ' ' then do
      let (tod, r3) ← parseTime r2
      let (off, r4) ← parseOffset r3
      guard (r4 = [])
      pure ⟨(days : Rat) * 86400 + tod, off⟩
    else none

/-- The `StatusFileContent.from_dict` classmethod of `relay/status_file.py`.
`now` is `datetime.now(UTC)`.  A non-object JSON value has no `.get`, and a
non-string `timestamp` value has no `.replace`: both raise
`AttributeError`, which the method's `except (ValueError, TypeError)` does
not catch. -/
def from_dict (now : PyDateTime) (data : Json) : Except PyExn PyStatusFileContent :=
  match data with
  | .obj fields =>
    match jsonGet fields "timestamp" (.str "") with
    | .str timestamp_str =>
      let timestamp :=
        match parseIso (pyReplaceZ timestamp_str) with
        | some dt => dt
        | none => now
      .ok
        { instance_id := jsonGet fields "instance_id" (.str "")
          project_name := jsonGet fields "project_name" (.str "")
          unity_version := jsonGet fields "unity_version" (.str "")
          status := jsonGet fields "status" (.str "ready")
          relay_host := jsonGet fields "relay_host" (.str "127.0.0.1")
          relay_port := jsonGet fields "relay_port" (.num 6500)
          timestamp := timestamp
          seq := jsonGet fields "seq" (.num 0) }
    | _ => .error (.attributeError "replace")
  | _ => .error (.attributeError "get")

/-- Raw state of the status file for one instance. -/
inductive RawFile where
  | missing
  | ioError
  | notJson
  | jsonContent (j : Json)

/-- The `read_status_file` function at the raw level: `missing` is the
`not file_path.exists()` branch, `ioError` a raised `OSError`, `notJson` a
raised `json.JSONDecodeError` (both caught, yielding `None`); a parsed JSON
value is handed to `from_dict`, whose exceptions propagate uncaught. -/
def read_status_file_py (file : RawFile) (now : PyDateTime) :
    Except PyExn (Option PyStatusFileContent) :=
  match file with
  | .missing => .ok none
  | .ioError => .ok none
  | .notJson => .ok none
  | .jsonContent j =>
    match from_dict now j with
    | .ok content => .ok (some content)
    | .error e => .error e

end Relay

open UnityCli Relay

/-- Status file used by the C5 counterexample: stored under the hash-derived
file name for the id `"proj"` but carrying a different `instance_id`. -/
def c5CexContent : StatusFileContent :=
  ⟨"other", "x", "6000.0.23f1", "reloading", "127.0.0.1", 6500, 0, 1⟩

/-- Status directory of the C5 counterexample. -/
def c5CexDir : StatusDirState := some [(status_file_name "proj", some c5CexContent)]

/-- Status file used by the C10 witness. -/
def c10WitnessContent : StatusFileContent :=
  ⟨"/w/p", "p", "6000.0.23f1", "reloading", "127.0.0.1", 6500, 5, 3⟩

/-- Status directory used by the C10 witness. -/
def c10WitnessDir : StatusDirState := some [(status_file_name "/w/p", some c10WitnessContent)]

set_option maxRecDepth 40000 in
/-- SHA-1 of the empty message, matching the published test vector. -/
theorem sha1_empty : bytesToHex (sha1 []) = "da39a3ee5e6b4b0d3255bfef95601890afd80709" := by
  decide

set_option maxRecDepth 40000 in
/-- SHA-1 of `"abc"`, matching the published test vector. -/
theorem sha1_abc :
    bytesToHex (sha1 (utf8Encode "abc")) = "a9993e364706816aba3e25717850c26c9cd0d89d" := by
  decide

/-! Helper lemmas shared by the claim theorems. -/

/-- A non-empty string prepended to a string changes it. -/
theorem string_append_ne (a b : String) (h : a.data ≠ []) : a ++ b ≠ b := by
  intro heq
  have hlen := congrArg String.length heq
  rw [String.length_append] at hlen
  have : a.length = 0 := by omega
  exact h (List.length_eq_zero.mp this)

/-- Decoding the 4-byte big-endian encoding of a value below `2 ^ 32`. -/
theorem beToNat_u32be (n : Nat) (h : n < 2 ^ 32) : beToNat (u32be n) = n := by
  simp only [beToNat, u32be, List.foldl]
  omega

/-- The length prefix is `HEADER_SIZE` bytes long. -/
theorem u32be_length (n : Nat) : (u32be n).length = HEADER_SIZE := rfl

/-- C9: a `UnityCLIConfig` constructed without explicit overrides has
`retry_initial_ms = 500`, `retry_max_ms = 8000`, and a `retry_max_time_ms`
within the 30–45 second range. -/
theorem c9_retry_defaults :
    defaultConfig.retry_initial_ms = 500 ∧ defaultConfig.retry_max_ms = 8000 ∧
      30000 ≤ defaultConfig.retry_max_time_ms ∧ defaultConfig.retry_max_time_ms ≤ 45000 := by
  refine ⟨rfl, rfl, by norm_num [defaultConfig], by norm_num [defaultConfig]⟩

/-- C2: `exit_code_for` maps `ConnectionError` to exit code 3; every
`TimeoutError` (both sub-codes) to 2; `InstanceError` with code
`INSTANCE_RELOADING` or `INSTANCE_BUSY` to 2; every other error — including
`InstanceError` with `INSTANCE_NOT_FOUND` or `AMBIGUOUS_INSTANCE` and
`ProtocolError` — to 4; and the dedicated `TEST_FAILURE` code 5 is non-zero
and distinct from the codes 0–4 used by the other members. -/
theorem c2_exit_code_mapping :
    (∀ m c, exit_code_for (.connectionError m c) = .CONNECTION_ERROR) ∧
    (∀ m c, exit_code_for (.timeoutError m c) = .TRANSIENT_ERROR) ∧
    (∀ m, exit_code_for (.instanceError m (some "INSTANCE_RELOADING")) = .TRANSIENT_ERROR) ∧
    (∀ m, exit_code_for (.instanceError m (some "INSTANCE_BUSY")) = .TRANSIENT_ERROR) ∧
    (∀ m, exit_code_for (.instanceError m (some "INSTANCE_NOT_FOUND")) = .OPERATION_ERROR) ∧
    (∀ m, exit_code_for (.instanceError m (some "AMBIGUOUS_INSTANCE")) = .OPERATION_ERROR) ∧
    (∀ m c, exit_code_for (.protocolError m c) = .OPERATION_ERROR) ∧
    (∀ e : UnityCLIError, e.isConnectionError = false → e.isTimeoutError = false →
      (e.isInstanceError = false ∨ codeIsTransient e.code = false) →
      exit_code_for e = .OPERATION_ERROR) ∧
    ExitCode.CONNECTION_ERROR.toNat = 3 ∧ ExitCode.TRANSIENT_ERROR.toNat = 2 ∧
    ExitCode.OPERATION_ERROR.toNat = 4 ∧ ExitCode.TEST_FAILURE.toNat = 5 ∧
    (∀ ec : ExitCode, ec ≠ .TEST_FAILURE → ec.toNat < 5) := by
  refine ⟨fun m c => rfl, fun m c => rfl, fun m => rfl, fun m => rfl, fun m => rfl,
    fun m => rfl, fun m c => rfl, ?_, rfl, rfl, rfl, rfl, ?_⟩
  · intro e h1 h2 h3
    simp only [exit_code_for, h1, h2, Bool.false_eq_true, if_false]
    rcases h3 with h3 | h3 <;> simp [h3]
  · intro ec h
    cases ec <;> simp_all [ExitCode.toNat]

/-- C2 witness: the mapping evaluated at concrete errors. -/
theorem c2_exit_code_mapping_witness :
    exit_code_for (.protocolError "bad frame" (some "PROTOCOL_ERROR")) = .OPERATION_ERROR ∧
    exit_code_for (.timeoutError "late" (some "RETRY_TIMEOUT")) = .TRANSIENT_ERROR :=
  ⟨c2_exit_code_mapping.2.2.2.2.2.2.2.1
      (.protocolError "bad frame" (some "PROTOCOL_ERROR")) rfl rfl (.inl rfl),
    c2_exit_code_mapping.2.1 "late" (some "RETRY_TIMEOUT")⟩

/-- C7: the frame format is a 4-byte unsigned big-endian length prefix
followed by the payload (`HEADER_SIZE = 4`); a frame whose payload fits in
`MAX_PAYLOAD_BYTES = 16 MiB` round-trips through encode/decode, and decoding
any stream whose declared length exceeds `MAX_PAYLOAD_BYTES` fails with
`ProtocolError`. -/
theorem c7_frame_codec :
    HEADER_SIZE = 4 ∧ MAX_PAYLOAD_BYTES = 16 * 1024 * 1024 ∧
    (∀ payload rest : List Nat, payload.length ≤ MAX_PAYLOAD_BYTES →
      encodeFrame payload = u32be payload.length ++ payload ∧
      (u32be payload.length).length = HEADER_SIZE ∧
      decodeFrame (encodeFrame payload ++ rest) = .ok (payload, rest)) ∧
    (∀ stream : List Nat, HEADER_SIZE ≤ stream.length →
      MAX_PAYLOAD_BYTES < beToNat (stream.take HEADER_SIZE) →
      decodeFrame stream = .error (.protocolError "payload too large" (some "PROTOCOL_ERROR"))) := by
  refine ⟨rfl, rfl, ?_, ?_⟩
  · intro payload rest hlen
    refine ⟨rfl, rfl, ?_⟩
    have hsize : payload.length < 2 ^ 32 := by
      have : MAX_PAYLOAD_BYTES < 2 ^ 32 := by norm_num [MAX_PAYLOAD_BYTES]
      omega
    have htake : (encodeFrame payload ++ rest).take HEADER_SIZE = u32be payload.length := by
      rw [encodeFrame, List.append_assoc]
      exact List.take_left' (u32be_length payload.length)
    have hdrop : (encodeFrame payload ++ rest).drop HEADER_SIZE = payload ++ rest := by
      rw [encodeFrame, List.append_assoc]
      exact List.drop_left' (u32be_length payload.length)
    have hlen4 : ¬ (encodeFrame payload ++ rest).length < HEADER_SIZE := by
      simp only [encodeFrame, List.length_append, u32be_length]
      omega
    rw [decodeFrame, if_neg hlen4]
    simp only [htake, hdrop, beToNat_u32be payload.length hsize]
    rw [if_neg (by omega), if_neg (by simp [List.length_append])]
    rw [List.take_left' rfl, List.drop_left' rfl]
  · intro stream hlen hbig
    rw [decodeFrame, if_neg (by omega)]
    simp only [if_pos hbig]

/-- C7 witness: a concrete round-trip and a concrete oversized header. -/
theorem c7_frame_codec_witness :
    decodeFrame (encodeFrame [1, 2, 3] ++ [9]) = .ok ([1, 2, 3], [9]) ∧
    decodeFrame [255, 255, 255, 255] =
      .error (.protocolError "payload too large" (some "PROTOCOL_ERROR")) :=
  ⟨(c7_frame_codec.2.2.1 [1, 2, 3] [9] (by norm_num [MAX_PAYLOAD_BYTES])).2.2,
    c7_frame_codec.2.2.2 [255, 255, 255, 255] (by norm_num [HEADER_SIZE])
      (by norm_num [MAX_PAYLOAD_BYTES, beToNat, List.take, List.foldl])⟩


/-- C1: `is_instance_reloading` is true exactly when the status file read
for the id has status `"reloading"` and age at most `max_age_seconds`; in
particular it is false for a `"ready"` status regardless of age, false once
the age strictly exceeds the threshold, and true at an age exactly equal to
the threshold. -/
theorem c1_is_instance_reloading_iff (fs : StatusDirState) (now : Rat)
    (instance_id : String) (max_age_seconds : Rat) :
    is_instance_reloading fs now instance_id max_age_seconds = true ↔
      ∃ s, read_status_file fs instance_id = some s ∧ s.status = "reloading" ∧
        now - s.timestamp ≤ max_age_seconds := by
  cases h : read_status_file fs instance_id with
  | none => simp [is_instance_reloading, h]
  | some s =>
    simp only [is_instance_reloading, h, Option.some.injEq]
    constructor
    · intro ht
      by_cases h1 : s.status = "reloading"
      · by_cases h2 : now - s.timestamp ≤ max_age_seconds
        · exact ⟨s, rfl, h1, h2⟩
        · simp [h1, not_le.mp h2] at ht
      · simp [h1] at ht
    · rintro ⟨s', hs', h1, h2⟩
      cases hs'
      simp [h1, not_lt.mpr h2]

/-- C6: `read_all_status_files` is ordered newest-first — each element's
timestamp is at least the following element's — and is empty when the status
directory does not exist. -/
theorem c6_read_all_sorted :
    (∀ fs : StatusDirState,
      List.Chain' (fun a b => b.timestamp ≤ a.timestamp) (read_all_status_files fs)) ∧
    read_all_status_files none = [] := by
  refine ⟨fun fs => ?_, rfl⟩
  cases fs with
  | none => simp [read_all_status_files]
  | some files =>
    simp only [read_all_status_files]
    exact List.Pairwise.chain' (List.sorted_insertionSort newestFirst _)
/-- The scan loop of `is_any_instance_reloading` finds a match exactly when
some listed status file is reloading, fresh, and matches the query by
project name or path suffix. -/
theorem reloadingScan_eq_true_iff (now : Rat) (query : String) (m : Rat)
    (l : List StatusFileContent) :
    reloadingScan now query m l = true ↔
      ∃ s ∈ l, s.status = "reloading" ∧ now - s.timestamp ≤ m ∧
        (s.project_name = query ∨ suffixMatch s.instance_id query = true) := by
  induction l with
  | nil => simp [reloadingScan]
  | cons s rest ih =>
    simp only [reloadingScan, List.mem_cons]
    split_ifs with h1 h2 h3 h4
    · rw [ih]
      constructor
      · rintro ⟨t, ht, hp⟩
        exact ⟨t, Or.inr ht, hp⟩
      · rintro ⟨t, rfl | ht, hp⟩
        · exact absurd hp.1 h1
        · exact ⟨t, ht, hp⟩
    · rw [ih]
      constructor
      · rintro ⟨t, ht, hp⟩
        exact ⟨t, Or.inr ht, hp⟩
      · rintro ⟨t, rfl | ht, hp⟩
        · exact absurd hp.2.1 (not_le.mpr h2)
        · exact ⟨t, ht, hp⟩
    · exact iff_of_true rfl
        ⟨s, Or.inl rfl, not_ne_iff.mp h1, not_lt.mp h2, Or.inl h3⟩
    · exact iff_of_true rfl
        ⟨s, Or.inl rfl, not_ne_iff.mp h1, not_lt.mp h2, Or.inr h4⟩
    · rw [ih]
      constructor
      · rintro ⟨t, ht, hp⟩
        exact ⟨t, Or.inr ht, hp⟩
      · rintro ⟨t, rfl | ht, hp⟩
        · rcases hp.2.2 with h | h
          · exact absurd h h3
          · exact absurd h h4
        · exact ⟨t, ht, hp⟩

/-- C5 (amended): `is_any_instance_reloading` is true exactly when the
hash-addressed status file for the query indicates a fresh reload (the
`is_instance_reloading` lookup), or some status file in the directory is
reloading, fresh, and matches the query by `project_name` equality or by an
`instance_id` path-suffix on a trailing `/query` or `\query` boundary.  A
file matching the query only through its `instance_id` content is found only
via the hash-addressed lookup, not by the scan. -/
theorem c5_is_any_reloading_iff (fs : StatusDirState) (now : Rat) (query : String)
    (m : Rat) :
    is_any_instance_reloading fs now query m = true ↔
      (is_instance_reloading fs now query m = true ∨
        ∃ s ∈ read_all_status_files fs, s.status = "reloading" ∧
          now - s.timestamp ≤ m ∧
          (s.project_name = query ∨ suffixMatch s.instance_id query = true)) := by
  by_cases h : is_instance_reloading fs now query m = true
  · simp [is_any_instance_reloading, h]
  · simp only [is_any_instance_reloading, h, if_false, Bool.false_eq_true, false_or]
    exact reloadingScan_eq_true_iff now query m (read_all_status_files fs)

set_option maxRecDepth 100000 in
/-- The hash-addressed lookup of the C5 counterexample hits the file. -/
theorem c5CexDir_read : read_status_file c5CexDir "proj" = some c5CexContent := by
  decide

set_option maxRecDepth 100000 in
/-- The directory listing of the C5 counterexample. -/
theorem c5CexDir_read_all : read_all_status_files c5CexDir = [c5CexContent] := by
  decide

set_option maxRecDepth 100000 in
/-- C5 counterexample: `is_any_instance_reloading` returns true for the
query `"proj"` although no status file in the directory matches `"proj"` as
its exact `instance_id`, by `project_name` equality, or as a path-suffix —
the hash-addressed lookup hit a file whose content names a different
instance.  The claimed equivalence is therefore false at this input. -/
theorem c5_counterexample :
    is_any_instance_reloading c5CexDir 0 "proj" 120 = true ∧
    ¬ ∃ s ∈ read_all_status_files c5CexDir, s.status = "reloading" ∧
        (0 : Rat) - s.timestamp ≤ 120 ∧
        (s.instance_id = "proj" ∨ s.project_name = "proj" ∨
          suffixMatch s.instance_id "proj" = true) := by
  constructor
  · have h1 : is_instance_reloading c5CexDir 0 "proj" 120 = true := by
      simp only [is_instance_reloading, c5CexDir_read]
      norm_num [c5CexContent]
    simp [is_any_instance_reloading, h1]
  · rw [c5CexDir_read_all]
    rintro ⟨s, hs, hstat, hage, hmatch⟩
    rw [List.mem_singleton] at hs
    subst hs
    have hsuf : suffixMatch c5CexContent.instance_id "proj" = false := by decide
    rcases hmatch with h | h | h
    · exact absurd h (by simp [c5CexContent])
    · exact absurd h (by simp [c5CexContent])
    · rw [hsuf] at h
      exact Bool.false_ne_true h

/-- The SHA-1 digest always has 20 bytes. -/
theorem sha1_length (msg : List Nat) : (sha1 msg).length = 20 := rfl

/-- Every byte produced by `wordToBytes` is below 256. -/
theorem wordToBytes_lt (w : Nat) : ∀ b ∈ wordToBytes w, b < 256 := by
  intro b hb
  simp only [wordToBytes, List.mem_cons, List.not_mem_nil, or_false] at hb
  rcases hb with rfl | rfl | rfl | rfl <;> omega

/-- Every SHA-1 digest byte is below 256. -/
theorem sha1_mem_lt (msg : List Nat) : ∀ b ∈ sha1 msg, b < 256 := by
  intro b hb
  simp only [sha1, sha1DigestBytes, List.mem_append] at hb
  rcases hb with (((h | h) | h) | h) | h <;> exact wordToBytes_lt _ b h

/-- `byteHex` contributes two characters per byte. -/
theorem length_flatMap_byteHex (bs : List Nat) :
    (bs.flatMap byteHex).length = 2 * bs.length := by
  induction bs with
  | nil => rfl
  | cons b t ih => simp [byteHex, ih]; omega

/-- `hexChar` only produces lowercase hexadecimal digits. -/
theorem hexChar_mem_hexDigits : ∀ n, n < 16 → hexChar n ∈ "0123456789abcdef".data := by
  decide

/-- The instance digest is exactly 8 characters long. -/
theorem compute_instance_hash_length (instance_id : String) :
    (compute_instance_hash instance_id).length = 8 := by
  show (((sha1 (utf8Encode instance_id)).take 4).flatMap byteHex).length = 8
  rw [length_flatMap_byteHex, List.length_take, sha1_length]
  norm_num

/-- Every character of the instance digest is a lowercase hex digit. -/
theorem compute_instance_hash_hex (instance_id : String) :
    ∀ c ∈ (compute_instance_hash instance_id).data, c ∈ "0123456789abcdef".data := by
  intro c hc
  have hc' : c ∈ ((sha1 (utf8Encode instance_id)).take 4).flatMap byteHex := hc
  rw [List.mem_flatMap] at hc'
  obtain ⟨b, hb, hcb⟩ := hc'
  have hblt : b < 256 := sha1_mem_lt _ b (List.take_subset 4 _ hb)
  have hcb' : c = hexChar (b / 16) ∨ c = hexChar (b % 16) := by
    simpa [byteHex] using hcb
  rcases hcb' with rfl | rfl
  · exact hexChar_mem_hexDigits _ (by omega)
  · exact hexChar_mem_hexDigits _ (by omega)

/-- C4 (amended): the digest of an instance id is a pure function of the id
(deterministic by construction), consists of exactly 8 lowercase hexadecimal
characters, and is the hex rendering of the first 4 bytes of the SHA-1 hash
of the UTF-8 encoded id; the status file path is `status-{digest}.json`
under `$UNITY_BRIDGE_STATUS_DIR` when that variable is set to a non-empty
string, otherwise — unset or set to the empty string — under
`~/.unity-bridge`. -/
theorem c4_digest_and_path (instance_id : String) (env : Option String) (home : String) :
    (compute_instance_hash instance_id).length = 8 ∧
    (∀ c ∈ (compute_instance_hash instance_id).data, c ∈ "0123456789abcdef".data) ∧
    compute_instance_hash instance_id =
      bytesToHex ((sha1 (utf8Encode instance_id)).take 4) ∧
    (∀ s, env = some s → s ≠ "" →
      get_status_file_path env home instance_id =
        pyPathJoin s ("status-" ++ compute_instance_hash instance_id ++ ".json")) ∧
    (env = none ∨ env = some "" →
      get_status_file_path env home instance_id =
        pyPathJoin (pyPathJoin home ".unity-bridge")
          ("status-" ++ compute_instance_hash instance_id ++ ".json")) := by
  refine ⟨compute_instance_hash_length instance_id, compute_instance_hash_hex instance_id,
    rfl, ?_, ?_⟩
  · rintro s rfl hne
    simp [get_status_file_path, get_status_dir, status_file_name, hne]
  · rintro (rfl | rfl) <;> rfl

set_option maxRecDepth 100000 in
/-- C4 witness: the digest and path evaluated at concrete inputs, including
the fallback to `~/.unity-bridge` when the environment variable is set to
the empty string. -/
theorem c4_digest_and_path_witness :
    (compute_instance_hash "/Users/dev/MyProject").length = 8 ∧
    get_status_file_path (some "/tmp/status") "/home/user" "/Users/dev/MyProject" =
      pyPathJoin "/tmp/status"
        ("status-" ++ compute_instance_hash "/Users/dev/MyProject" ++ ".json") ∧
    get_status_file_path (some "") "/home/user" "proj" =
      pyPathJoin (pyPathJoin "/home/user" ".unity-bridge")
        ("status-" ++ compute_instance_hash "proj" ++ ".json") :=
  ⟨(c4_digest_and_path "/Users/dev/MyProject" (some "/tmp/status") "/home/user").1,
   (c4_digest_and_path "/Users/dev/MyProject" (some "/tmp/status") "/home/user").2.2.2.1
     "/tmp/status" rfl (by decide),
   (c4_digest_and_path "proj" (some "") "/home/user").2.2.2.2 (Or.inr rfl)⟩

/-- C4 counterexample: with `UNITY_BRIDGE_STATUS_DIR` set (to the empty
string), the status file path is not under the directory given by the
variable — the code falls back to `~/.unity-bridge` for any falsy value, so
the claim's unconditional "when set" reading fails at this input. -/
theorem c4_counterexample :
    get_status_file_path (some "") "/home/user" "proj" ≠
      pyPathJoin "" (status_file_name "proj") := by
  have hR : pyPathJoin "" (status_file_name "proj") = status_file_name "proj" := rfl
  have hL : get_status_file_path (some "") "/home/user" "proj" =
      ("/home/user/.unity-bridge" ++ "/") ++ status_file_name "proj" := by
    simp [get_status_file_path, get_status_dir, pyPathJoin, String.append_assoc]
  rw [hL, hR]
  exact string_append_ne _ _ (by decide)

/-- `replaceZ` distributes over append. -/
theorem replaceZ_append (l₁ l₂ : List Char) :
    replaceZ (l₁ ++ l₂) = replaceZ l₁ ++ replaceZ l₂ := by
  induction l₁ with
  | nil => rfl
  | cons c t ih =>
    by_cases h : c = 'Z' <;> simp [replaceZ, h, ih]

/-- `replaceZ` leaves a `'Z'`-free character list unchanged. -/
theorem replaceZ_of_not_mem (l : List Char) (h : 'Z' ∉ l) : replaceZ l = l := by
  induction l with
  | nil => rfl
  | cons c t ih =>
    rw [List.mem_cons, not_or] at h
    have hc : ¬ c = 'Z' := fun hh => h.1 hh.symm
    simp [replaceZ, hc, ih h.2]

/-- Appending a trailing `Z` to a `'Z'`-free string and then replacing every
`Z` yields the string with `+00:00` appended. -/
theorem pyReplaceZ_trailing_z (s : String) (h : 'Z' ∉ s.data) :
    pyReplaceZ (s ++ "Z") = s ++ "+00:00" := by
  apply congrArg String.mk
  show replaceZ (s ++ "Z").data = (s ++ "+00:00").data
  rw [String.data_append, String.data_append, replaceZ_append, replaceZ_of_not_mem s.data h]
  rfl

/-- Replacing every `Z` in a `'Z'`-free string with `+00:00` appended keeps
the string unchanged. -/
theorem pyReplaceZ_plus_zero (s : String) (h : 'Z' ∉ s.data) :
    pyReplaceZ (s ++ "+00:00") = s ++ "+00:00" := by
  apply congrArg String.mk
  show replaceZ (s ++ "+00:00").data = (s ++ "+00:00").data
  rw [String.data_append, replaceZ_append, replaceZ_of_not_mem s.data h,
    replaceZ_of_not_mem "+00:00".data (by decide)]

/-- C8: for a timestamp string whose only `Z` is the trailing one,
`StatusFileContent.from_dict` produces the same parsed content — in
particular the same timestamp instant — as for the equivalent string with
`+00:00` in place of the `Z`: the trailing `Z` is accepted as UTC. -/
theorem c8_trailing_z_is_utc (s : String) (fields : List (String × Json))
    (now : PyDateTime) (h : 'Z' ∉ s.data) :
    from_dict now (.obj (("timestamp", .str (s ++ "Z")) :: fields)) =
      from_dict now (.obj (("timestamp", .str (s ++ "+00:00")) :: fields)) := by
  have hget : ∀ v : Json, jsonGet (("timestamp", v) :: fields) "timestamp" (.str "") = v := by
    intro v
    simp [jsonGet, List.lookup_cons_self]
  have hother : ∀ (key : String) (v : Json) (dflt : Json), key ≠ "timestamp" →
      jsonGet (("timestamp", v) :: fields) key dflt = jsonGet fields key dflt := by
    intro key v dflt hk
    simp [jsonGet, List.lookup, beq_false_of_ne hk]
  simp only [from_dict, hget, pyReplaceZ_trailing_z s h, pyReplaceZ_plus_zero s h]
  congr 1

set_option maxRecDepth 100000 in
/-- C8 witness: a concrete ISO-8601 timestamp with trailing `Z`. -/
theorem c8_trailing_z_is_utc_witness :
    from_dict ⟨0, some 0⟩
        (.obj [("timestamp", .str ("2024-01-15T10:30:00" ++ "Z"))]) =
      from_dict ⟨0, some 0⟩
        (.obj [("timestamp", .str ("2024-01-15T10:30:00" ++ "+00:00"))]) :=
  c8_trailing_z_is_utc "2024-01-15T10:30:00" [] ⟨0, some 0⟩ (by decide)

/-- C3: `read_status_file` returns `None` on a missing file, an I/O error or
contents that are not parseable JSON — but it is not exception-free: on a
file whose contents are valid JSON that is not an object (here the array
`[1, 2, 3]`), `data.get` raises `AttributeError`, which the function's
`except (json.JSONDecodeError, OSError)` clause does not catch, so the
exception propagates to the caller. -/
theorem c3_read_status_file_eval :
    (∀ now, read_status_file_py .missing now = .ok none) ∧
    (∀ now, read_status_file_py .ioError now = .ok none) ∧
    (∀ now, read_status_file_py .notJson now = .ok none) ∧
    read_status_file_py (.jsonContent (.arr [.num 1, .num 2, .num 3])) ⟨0, some 0⟩ =
      .error (.attributeError "get") :=
  ⟨fun _ => rfl, fun _ => rfl, fun _ => rfl, rfl⟩

/-- C10: a status-file dict whose `timestamp` is missing, or is a string
that does not parse as an ISO-8601 datetime, gets the current time as its
timestamp, so a reloading status file with such a timestamp has age zero at
read time and is not treated as stale — but a non-string `timestamp` value
(here the number `5`) makes `from_dict` raise `AttributeError` at
`timestamp_str.replace` instead of substituting the current time, although
the method's `except` clause lists `TypeError` precisely to catch
non-string timestamps at `datetime.fromisoformat`. -/
theorem c10_timestamp_fallback :
    (∀ now : PyDateTime,
      ∃ c, from_dict now (.obj [("status", .str "reloading")]) = .ok c ∧
        c.timestamp = now ∧ c.status = .str "reloading") ∧
    (∀ now : PyDateTime,
      ∃ c, from_dict now
          (.obj [("status", .str "reloading"), ("timestamp", .str "not-a-timestamp")]) =
            .ok c ∧ c.timestamp = now ∧ c.status = .str "reloading") ∧
    (∀ (fs : StatusDirState) (instance_id : String) (now m : Rat)
        (s : StatusFileContent),
      read_status_file fs instance_id = some s → s.status = "reloading" →
      s.timestamp = now → 0 ≤ m →
      is_instance_reloading fs now instance_id m = true) ∧
    from_dict ⟨0, some 0⟩ (.obj [("status", .str "reloading"), ("timestamp", .num 5)]) =
      .error (.attributeError "replace") := by
  refine ⟨fun now => ⟨_, rfl, rfl, rfl⟩, fun now => ⟨_, rfl, rfl, rfl⟩, ?_, rfl⟩
  intro fs instance_id now m s hread hstat hts hm
  rw [is_instance_reloading, hread]
  simp only [hstat, ne_eq, not_true_eq_false, if_false, hts]
  rw [if_neg (by simp; linarith)]

set_option maxRecDepth 100000 in
/-- C10 witness: a concrete reloading status file whose timestamp equals the
read-time clock is reported as reloading. -/
theorem c10_timestamp_fallback_witness :
    is_instance_reloading c10WitnessDir 5 "/w/p" 120 = true :=
  c10_timestamp_fallback.2.2.1 c10WitnessDir "/w/p" 5 120 c10WitnessContent
    (by decide) rfl rfl (by norm_num)
